import Mathlib

/-!
# Delilah Viewer — verification of the rendering core (src/dla.js)

This file is a shallow embedding, in Lean 4, of the parts of the Delilah
Viewer module `dla.js` that the specification's claims are about:

* the `Matrix` class (4×4 row-major matrices with post-multiplication);
* the per-object cull pass of `renderScene` that fills the paint-sort
  buffer `m_paint` with packed `(quantizedZ << 16) | index` keys;
* the paint sort and the draw pass's dispatch order;
* one iteration of the triangle near/far clipping state machine;
* the scene-file validator `loadScene` (operating on parsed JSON values;
  the JSON parser itself is host functionality outside the module).

JavaScript numbers are modelled by `ℚ` (exact arithmetic; every numeric
literal a JSON file can produce is rational, and the code's
`isFinite`-guards never fire on rationals, so those guards become dead
branches that are noted in comments where they occur in the source).
`Math.floor` is `Int.floor`, `Math.min`/`Math.max` are `min`/`max`.
Unsigned 16/32-bit words are modelled by `ℕ` with explicit bounds.
-/

namespace Delilah

/-! ## The Matrix class (dla.js, `Matrix`)

A 4×4 matrix stored row-major, here as a function `Fin 4 → Fin 4 → ℚ`.
`Matrix.prototype._mul` post-multiplies: `result[i][j] = Σₖ m[i][k]·b[k][j]`,
written in the source as the explicit four-term sum. -/

def Matrix : Type := Fin 4 → Fin 4 → ℚ

/-- `Matrix.prototype._mul`: post-multiply `m` by `b` (the explicit
four-term sum of the source, lines 519–529). -/
def Matrix.mul (m b : Matrix) : Matrix := fun i j =>
  (m i 0 * b 0 j) + (m i 1 * b 1 j) + (m i 2 * b 2 j) + (m i 3 * b 3 j)

/-- `Matrix.prototype.translate`: post-multiply by the translation matrix
`[[1,0,0,0],[0,1,0,0],[0,0,1,0],[tx,ty,tz,1]]` (row-major). -/
def Matrix.translate (m : Matrix) (tx ty tz : ℚ) : Matrix :=
  m.mul ![![1, 0, 0, 0],
          ![0, 1, 0, 0],
          ![0, 0, 1, 0],
          ![tx, ty, tz, 1]]

/-! ## Camera-space geometry and the cull pass of `renderScene` -/

/-- A camera-space point, as stored in three consecutive cells of the
transformed vertex buffer `m_tvx`. -/
structure Vec3 where
  x : ℚ
  y : ℚ
  z : ℚ
deriving DecidableEq

/-- A validated scene object: the five 16-bit words of one `m_scene` entry
`(a, b, c, d, e)` — vertex/radius/style indices, fill word, style word. -/
structure SceneObj where
  a : ℕ
  b : ℕ
  c : ℕ
  d : ℕ
  e : ℕ
deriving DecidableEq

instance : Inhabited SceneObj := ⟨⟨0, 0, 0, 0, 0⟩⟩

/-- The unused-slot marker `0xffffffff` written to `m_paint` for culled
objects; ascending sort places these at the end. -/
def sentinel : ℕ := 4294967295

/-- The backface dot product of `renderScene` (lines 1951–1967):
`v1 · (e1 × e2)` with `e1 = v2 − v1`, `e2 = v3 − v1`, written exactly as
the source's expression. The triangle is visible iff this is `< 0`. -/
def triP (tvx : ℕ → Vec3) (o : SceneObj) : ℚ :=
  let v1 := tvx o.a
  let e1x := (tvx o.b).x - v1.x
  let e1y := (tvx o.b).y - v1.y
  let e1z := (tvx o.b).z - v1.z
  let e2x := (tvx o.c).x - v1.x
  let e2y := (tvx o.c).y - v1.y
  let e2z := (tvx o.c).z - v1.z
  (v1.x * ((e1y * e2z) - (e1z * e2y))) +
  (v1.y * ((e1z * e2x) - (e1x * e2z))) +
  (v1.z * ((e1x * e2y) - (e1y * e2x)))

/-- The Z-quantization of the cull pass (lines 1994–2003 and the two
copies for lines and points/spheres): clamp the centroid to `[far, near]`,
normalize against `extent = near − far`, multiply by 65535, `Math.floor`,
clamp to `[0, 65535]`.  (The source first replaces a non-finite centroid
by 0; over `ℚ` every value is finite, so that branch is dead.) -/
def quantZ (near far z : ℚ) : ℤ :=
  let zc := min (max z far) near
  let zn := (zc - far) / (near - far)
  let q := ⌊zn * 65535⌋
  min (max q 0) 65535

/-- Packing of a paint key (line 2007): `(z << 16) | i`.  For
`z ∈ [0, 65535]` and `i ∈ [0, 65534]` the JavaScript expression (int32
shift/or followed by the `Uint32Array` store) produces exactly
`z·65536 + i`. -/
def packKey (near far z : ℚ) (i : ℕ) : ℕ :=
  (quantZ near far z).toNat * 65536 + i

/-- One slot of the cull pass (renderScene lines 1930–2095): classify the
object by the `(b, c)` sentinel pattern, apply backface culling (triangles
only) and whole-object near/far culling, and produce either the packed
paint key or the `0xffffffff` reject marker. -/
def paintKey (near far : ℚ) (tvx : ℕ → Vec3) (o : SceneObj) (i : ℕ) : ℕ :=
  if o.b ≠ 65535 ∧ o.c ≠ 65535 then
    -- Triangle
    let z1 := (tvx o.a).z
    let z2 := (tvx o.b).z
    let z3 := (tvx o.c).z
    if triP tvx o < 0 then
      if z1 ≥ near ∧ z2 ≥ near ∧ z3 ≥ near then sentinel
      else if z1 ≤ far ∧ z2 ≤ far ∧ z3 ≤ far then sentinel
      else packKey near far ((z1 + z2 + z3) / 3) i
    else sentinel
  else if o.b ≠ 65535 ∧ o.c = 65535 then
    -- Line
    let z1 := (tvx o.a).z
    let z2 := (tvx o.b).z
    if z1 ≥ near ∧ z2 ≥ near then sentinel
    else if z1 ≤ far ∧ z2 ≤ far then sentinel
    else packKey near far ((z1 + z2) / 2) i
  else
    -- Point or sphere
    let z := (tvx o.a).z
    if z ≥ near then sentinel
    else if z ≤ far then sentinel
    else packKey near far z i

/-- The camera-space Z centroid the cull pass quantizes, per object kind
(average of three Zs for triangles, midpoint for lines, the single origin
Z for points and spheres). -/
def zCentroid (tvx : ℕ → Vec3) (o : SceneObj) : ℚ :=
  if o.b ≠ 65535 ∧ o.c ≠ 65535 then
    ((tvx o.a).z + (tvx o.b).z + (tvx o.c).z) / 3
  else if o.b ≠ 65535 ∧ o.c = 65535 then
    ((tvx o.a).z + (tvx o.b).z) / 2
  else (tvx o.a).z

/-- The spec's quantization formula, amended from `round` to the
`Math.floor` the source actually uses: clamp `z` to `[far, near]`,
then `⌊(z − far)/(near − far) · 65535⌋` clamped to `[0, 65535]`. -/
def quantizedZSpec (near far z : ℚ) : ℤ :=
  min (max ⌊(min (max z far) near - far) / (near - far) * 65535⌋ 0) 65535

/-- The spec's quantization formula exactly as claim C1 states it:
`round((z − far)/(near − far) · 65535)` clamped to `[0, 65535]`, after
clamping `z` to `[far, near]`.  (`round` here is Mathlib's
`round x = ⌊x + 1/2⌋`, which agrees with JavaScript's `Math.round`.) -/
def quantizedZRound (near far z : ℚ) : ℤ :=
  min (max (round ((min (max z far) near - far) / (near - far) * 65535)) 0) 65535

/-- The whole paint buffer as produced by the cull pass: one key per scene
object, in object-index order. -/
def paintList (near far : ℚ) (tvx : ℕ → Vec3) (scene : List SceneObj) : List ℕ :=
  (List.range scene.length).map fun j =>
    paintKey near far tvx (scene.getD j default) j

/-- The paint buffer after `m_paint.sort()` (line 2100): a `Uint32Array`
sort is an ascending numeric sort; we model its result with
`insertionSort`, which produces the same (unique, since sorting naturals)
sorted permutation. -/
def sortedPaint (near far : ℚ) (tvx : ℕ → Vec3) (scene : List SceneObj) : List ℕ :=
  (paintList near far tvx scene).insertionSort (· ≤ ·)

/-- The keys the draw pass actually visits: it walks the sorted buffer
and stops at the first `0xffffffff` (lines 2108–2116). -/
def drawnKeys (near far : ℚ) (tvx : ℕ → Vec3) (scene : List SceneObj) : List ℕ :=
  (sortedPaint near far tvx scene).takeWhile fun k => k != sentinel

/-- The object indices dispatched for drawing, in emission order: the low
16 bits (`p & 0xffff`, line 2120) of each visited key. -/
def emitted (near far : ℚ) (tvx : ℕ → Vec3) (scene : List SceneObj) : List ℕ :=
  (drawnKeys near far tvx scene).map fun k => k % 65536

/-! ## One iteration of the triangle clipping state machine
(renderScene lines 2237–2373). Each of the `k_max` iterations re-fetches
the three camera-space vertices, bubble-sorts them into descending Z,
then applies near-plane and far-plane clipping. -/

/-- The three-comparison bubble sort of lines 2239–2279: after it,
`v1.z ≥ v2.z ≥ v3.z`. -/
def sortDescZ (v1 v2 v3 : Vec3) : Vec3 × Vec3 × Vec3 :=
  let p1 := if v1.z < v2.z then (v2, v1) else (v1, v2)
  let p2 := if p1.2.z < v3.z then (v3, p1.2) else (p1.2, v3)
  let p3 := if p1.1.z < p2.1.z then (p2.1, p1.1) else (p1.1, p2.1)
  (p3.1, p3.2, p2.2)

/-- Near-plane clipping (lines 2282–2326), for descending-Z sorted input.
`k`/`kmax` select which subtriangle of a split is produced (the source
compares `k > k_max / 2`; for the reachable values `k_max ∈ {1,2,4}` and
`k ≥ 1`, JavaScript's float division and `ℕ` division agree). -/
def nearClip (near : ℚ) (k kmax : ℕ) (v1 v2 v3 : Vec3) : Vec3 × Vec3 × Vec3 :=
  if v1.z > near ∧ v2.z > near then
    let t1 := (near - v3.z) / (v1.z - v3.z)
    let t2 := (near - v3.z) / (v2.z - v3.z)
    (⟨v3.x + t1 * (v1.x - v3.x), v3.y + t1 * (v1.y - v3.y), near⟩,
     ⟨v3.x + t2 * (v2.x - v3.x), v3.y + t2 * (v2.y - v3.y), near⟩,
     v3)
  else if v1.z > near then
    let v0 := v1
    let t2 := (near - v2.z) / (v0.z - v2.z)
    let w1 : Vec3 := ⟨v2.x + t2 * (v0.x - v2.x), v2.y + t2 * (v0.y - v2.y), near⟩
    if k > kmax / 2 then
      let t3 := (near - v3.z) / (v0.z - v3.z)
      (w1, ⟨v3.x + t3 * (v0.x - v3.x), v3.y + t3 * (v0.y - v3.y), near⟩, v3)
    else (w1, v2, v3)
  else (v1, v2, v3)

/-- Far-plane clipping (lines 2329–2373), for descending-Z sorted input.
In the single-vertex branch the source computes
`x3 = x0 + t1·(x1 − x0); y3 = y0 + t1·(y1 − y0); y3 = far;` — the second
assignment to `y3` discards the computed Y and the Z coordinate `z3` is
never assigned, so the emitted bottom vertex keeps its original Z and has
its Y overwritten by `far`.  This embedding reproduces that behaviour. -/
def farClip (far : ℚ) (k : ℕ) (v1 v2 v3 : Vec3) : Vec3 × Vec3 × Vec3 :=
  if v2.z < far ∧ v3.z < far then
    let t2 := (far - v2.z) / (v1.z - v2.z)
    let t3 := (far - v3.z) / (v1.z - v3.z)
    (v1,
     ⟨v2.x + t2 * (v1.x - v2.x), v2.y + t2 * (v1.y - v2.y), far⟩,
     ⟨v3.x + t3 * (v1.x - v3.x), v3.y + t3 * (v1.y - v3.y), far⟩)
  else if v3.z < far then
    let v0 := v3
    let t1 := (far - v0.z) / (v1.z - v0.z)
    let w3 : Vec3 := ⟨v0.x + t1 * (v1.x - v0.x), far, v0.z⟩
    if k % 2 = 0 then
      let t2 := (far - v0.z) / (v2.z - v0.z)
      (⟨v0.x + t2 * (v2.x - v0.x), v0.y + t2 * (v2.y - v0.y), far⟩, v2, w3)
    else (v1, v2, w3)
  else (v1, v2, v3)

/-- One full clipping iteration `k` of `k_max` for a triangle needing
clipping: sort descending by Z, near-clip, far-clip. -/
def clipIter (near far : ℚ) (k kmax : ℕ) (v1 v2 v3 : Vec3) : Vec3 × Vec3 × Vec3 :=
  let s := sortDescZ v1 v2 v3
  let n := nearClip near k kmax s.1 s.2.1 s.2.2
  farClip far k n.1 n.2.1 n.2.2


/-! ## The scene-file validator `loadScene` (dla.js lines 2818–3425)

`loadScene` receives a string, parses it with the host's `JSON.parse`
(out of scope here: the input below is the parsed value, `none` for a
parse failure), validates it, and only on success replaces the module's
scene state.  A validation failure throws the internal syntax-error
token, which the wrapper turns into a `false` return; the first error
message is kept in `m_errmsg`.  The `in`-operator applied to a `null`
style entry (which passes the `typeof o != "object"` test) would throw a
TypeError that the wrapper re-throws; such crashes are modelled by
`LoadErr.crash`. -/

/-- A parsed JSON value (the output of the host's `JSON.parse`). -/
inductive JVal where
  | jnull : JVal
  | jbool : Bool → JVal
  | jnum : ℚ → JVal
  | jstr : String → JVal
  | jarr : List JVal → JVal
  | jobj : List (String × JVal) → JVal

/-- Property access on a parsed JSON object (`"k" in o` / `o.k`; an
object produced by `JSON.parse` has no duplicate keys). -/
def jlookup (fs : List (String × JVal)) (k : String) : Option JVal :=
  match fs with
  | [] => none
  | (k2, v) :: rest => if k2 = k then some v else jlookup rest k

/-- Failure modes of `loadScene`: a scene-file syntax error carrying the
message passed to `syntax()`, or a thrown non-syntax exception. -/
inductive LoadErr where
  | syn : String → LoadErr
  | crash : LoadErr
deriving DecidableEq

def synErr {α : Type} (m : String) : Except LoadErr α := .error (.syn m)

/-- `need cond msg`: proceed if `cond` holds, otherwise report the
syntax error `msg` (one `if (...) syntax(...)` guard of the source). -/
def need (b : Prop) [Decidable b] (m : String) : Except LoadErr Unit :=
  if b then .ok () else synErr m

/-- A validated point style as stored in `m_pstyle`: `fill` present iff
the shape is fillable, `ink` present iff the stroke width is positive. -/
structure PStyle where
  shape : String
  size : ℚ
  stroke : ℚ
  fill : Option ℤ
  ink : Option ℤ
deriving DecidableEq

/-- A validated line style as stored in `m_lstyle`. -/
structure LStyle where
  width : ℚ
  color : ℤ
deriving DecidableEq

/-- `VALID_SHAPES = "csmudlrpx"`, membership of a one-character string. -/
def validShape (s : String) : Bool :=
  (["c", "s", "m", "u", "d", "l", "r", "p", "x"] : List String).contains s

/-- `FILL_SHAPES = "csmudlr"`, membership of a one-character string. -/
def isFillShape (s : String) : Bool :=
  (["c", "s", "m", "u", "d", "l", "r"] : List String).contains s

/-- Vertex-buffer copy loop (lines 2964–2989): every element must be a
number (the finiteness re-check is dead over `ℚ`). -/
def loadVerts : List JVal → Except LoadErr (List ℚ)
  | [] => .ok []
  | .jnum q :: rest => do
    let vs ← loadVerts rest
    .ok (q :: vs)
  | _ :: _ => synErr "Vertex buffer may only contain numbers"

/-- Validation of one scene-object quintuple (lines 2995–3143): floor
the five numbers, bound them to 16 bits, then classify by the `(b, c)`
sentinel pattern and check the kind-specific references.  The final
`fault(func_name, 200)` branch of the source is unreachable and modelled
as a crash. -/
def loadSceneObjOne (vcount rcount pscount lscount : ℕ)
    (v1 v2 v3 v4 v5 : JVal) : Except LoadErr SceneObj :=
  match v1, v2, v3, v4, v5 with
  | .jnum qa, .jnum qb, .jnum qc, .jnum qx, .jnum qy =>
    let fa := ⌊qa⌋
    let fb := ⌊qb⌋
    let fc := ⌊qc⌋
    let fx := ⌊qx⌋
    let fy := ⌊qy⌋
    if fa < 0 ∨ fa > 65535 ∨ fb < 0 ∨ fb > 65535 ∨ fc < 0 ∨ fc > 65535 ∨
        fx < 0 ∨ fx > 65535 ∨ fy < 0 ∨ fy > 65535 then
      synErr "Scene buffer may only contain 16-bit integers"
    else
      let a := fa.toNat
      let b := fb.toNat
      let c := fc.toNat
      let x := fx.toNat
      let y := fy.toNat
      if a ≥ vcount then synErr "First vertex must always be valid index"
      else if b ≠ 65535 ∧ c ≠ 65535 then
        -- TRIANGLE
        if b ≥ vcount ∨ c ≥ vcount then
          synErr "Triangles must have three valid vertices"
        else if x ≥ 32768 then synErr "Triangles must have 15-bit fill color"
        else if y ≥ 32768 then synErr "Triangles must have 15-bit style"
        else if (y >>> 10) > 0 ∧ (y >>> 10) > lscount then
          synErr "Selectors must reference line style or none"
        else if ((y >>> 5) &&& 31) > 0 ∧ ((y >>> 5) &&& 31) > lscount then
          synErr "Selectors must reference line style or none"
        else if (y &&& 31) > 0 ∧ (y &&& 31) > lscount then
          synErr "Selectors must reference line style or none"
        else .ok ⟨a, b, c, x, y⟩
      else if b = 65535 ∧ c ≠ 65535 then
        -- SPHERE
        if c ≥ rcount then synErr "Spheres must have valid radius indices"
        else if x ≥ 32768 ∧ x ≠ 65535 then
          synErr "Spheres must have 15-bit fill or be transparent"
        else if y ≥ lscount ∧ y ≠ 65535 then
          synErr "Spheres must reference line style or transparent"
        else if x = 65535 ∧ y = 65535 then
          synErr "Spheres may not be fully transparent"
        else .ok ⟨a, b, c, x, y⟩
      else if b ≠ 65535 ∧ c = 65535 then
        -- LINE (the unused fourth element is stored as zero)
        if b ≥ vcount then synErr "Lines must have two valid vertices"
        else if y ≥ lscount then synErr "Lines must reference defined line style"
        else .ok ⟨a, b, c, 0, y⟩
      else if b = 65535 ∧ c = 65535 then
        -- POINT (the unused fourth element is stored as zero)
        if y ≥ pscount then synErr "Points must reference defined point style"
        else .ok ⟨a, b, c, 0, y⟩
      else .error .crash
  | _, _, _, _, _ => synErr "Scene buffer may only contain numbers"

/-- The scene-object loop, five flat array elements per object (callers
have checked the array length is a positive multiple of five, so the
catch-all is unreachable). -/
def loadSceneObjs (vcount rcount pscount lscount : ℕ) :
    List JVal → Except LoadErr (List SceneObj)
  | [] => .ok []
  | v1 :: v2 :: v3 :: v4 :: v5 :: rest => do
    let o ← loadSceneObjOne vcount rcount pscount lscount v1 v2 v3 v4 v5
    let os ← loadSceneObjs vcount rcount pscount lscount rest
    .ok (o :: os)
  | _ => .error .crash

/-- Radius-table loop (lines 3150–3169): numbers, finite (dead over ℚ),
strictly positive. -/
def loadRadii : List JVal → Except LoadErr (List ℚ)
  | [] => .ok []
  | .jnum q :: rest =>
    if ¬(q > 0) then synErr "Radii must be greater than zero"
    else do
      let rs ← loadRadii rest
      .ok (q :: rs)
  | _ :: _ => synErr "Radii must be numbers"

/-- Validation of one point style (lines 3176–3330).  Note the source's
ink extraction at line 3287: inside the `stroke > 0` branch, after
checking that the `ink` property exists, it reads `y = o.fill` — the
`fill` property — and validates and stores that value as the ink color.
This embedding reproduces that behaviour faithfully.  A `null` array
entry passes the `typeof o != "object"` test and then crashes on the
`in` operator. -/
def loadPstyleOne (v : JVal) : Except LoadErr PStyle :=
  match v with
  | .jnull => .error .crash
  | .jobj o =>
    match jlookup o "shape", jlookup o "size", jlookup o "stroke" with
    | none, _, _ => synErr "All point styles must have shape property"
    | some _, none, _ => synErr "All point styles must have size property"
    | some _, some _, none => synErr "All point styles must have stroke property"
    | some sv, some zv, some cv =>
      match sv with
      | .jstr a =>
        if a.length ≠ 1 then synErr "Point style shape code must be one character"
        else if ¬ validShape a then
          synErr ("Invalid shape code \x27" ++ a ++ "\x27 in point style")
        else match zv with
        | .jnum b =>
          if ¬(b > 0) then synErr "Point style size must be greater than zero"
          else match cv with
          | .jnum c =>
            if ¬(c ≥ 0) then synErr "Point style stroke must be zero or greater"
            else do
              let x ← (if isFillShape a then
                  match jlookup o "fill" with
                  | none => synErr "Point style must have fill for filled shapes"
                  | some (.jnum q) =>
                    let f := ⌊q⌋
                    if (f < 0 ∨ f > 32767) ∧ f ≠ 65535 then
                      synErr "Point style fill must be 15-bit or 65535"
                    else Except.ok (some f)
                  | some _ => synErr "Point style fill must be number"
                else
                  match jlookup o "fill" with
                  | some _ => synErr "Point style may not have fill for unfilled shapes"
                  | none => Except.ok none)
              let y ← (if c > 0 then
                  match jlookup o "ink" with
                  | none => synErr "Point style with stroke must have ink"
                  | some _ =>
                    -- source line 3287: y = o.fill  (not o.ink)
                    match jlookup o "fill" with
                    | some (.jnum q) =>
                      let f := ⌊q⌋
                      if f < 0 ∨ f > 32767 then synErr "Point style ink must be 15-bit"
                      else Except.ok (some f)
                    | _ => synErr "Point style ink must be number"
                else
                  match jlookup o "ink" with
                  | some _ => synErr "Point style with zero stroke may not have ink"
                  | none => Except.ok none)
              Except.ok ⟨a, b, c, x, y⟩
          | _ => synErr "Point style stroke must be number"
        | _ => synErr "Point style size must be number"
      | _ => synErr "Point style shape code must be string"
  | _ => synErr "Point styles must be objects"

def loadPstyles : List JVal → Except LoadErr (List PStyle)
  | [] => .ok []
  | v :: rest => do
    let p ← loadPstyleOne v
    let ps ← loadPstyles rest
    .ok (p :: ps)

/-- Validation of one line style (lines 3337–3393). -/
def loadLstyleOne (v : JVal) : Except LoadErr LStyle :=
  match v with
  | .jnull => .error .crash
  | .jobj o =>
    match jlookup o "width", jlookup o "color" with
    | none, _ => synErr "All line styles must have width property"
    | some _, none => synErr "All line styles must have color property"
    | some wv, some cv =>
      match wv with
      | .jnum a =>
        match cv with
        | .jnum b =>
          if ¬(a > 0) then synErr "Line style width must be greater than zero"
          else
            let fb := ⌊b⌋
            if fb < 0 ∨ fb > 32767 then synErr "Line style color must be 15-bit HiColor"
            else Except.ok ⟨a, fb⟩
        | _ => synErr "Line style color must be number"
      | _ => synErr "Line style width must be number"
  | _ => synErr "Line styles must be objects"

def loadLstyles : List JVal → Except LoadErr (List LStyle)
  | [] => .ok []
  | v :: rest => do
    let l ← loadLstyleOne v
    let ls ← loadLstyles rest
    .ok (l :: ls)

/-- The validated tables a successful load produces. -/
structure SceneData where
  vtx : List ℚ
  scene : List SceneObj
  rad : List ℚ
  ps : List PStyle
  ls : List LStyle
deriving DecidableEq

/-- Optional top-level array member (`pstyle` / `lstyle` / `radius`):
absent means count zero; present requires an array. -/
def optArr (fs : List (String × JVal)) (k m : String) :
    Except LoadErr (List JVal) :=
  match jlookup fs k with
  | none => .ok []
  | some (.jarr xs) => .ok xs
  | some _ => synErr m

/-- The full validation chain of `loadScene`, in source order: top-level
shape, member shapes, length constraints, count limits, then the vertex,
scene-object, radius, point-style and line-style loops. -/
def validate (data : JVal) : Except LoadErr SceneData :=
  match data with
  | .jnull => synErr "Not a valid JSON file"
  | .jobj fs => do
    let psArr ← optArr fs "pstyle" "pstyle property must be array"
    let lsArr ← optArr fs "lstyle" "lstyle property must be array"
    let rArr ← optArr fs "radius" "radius property must be array"
    let vArr ← (match jlookup fs "vertex" with
      | none => synErr "Missing vertex property"
      | some (.jarr xs) => Except.ok xs
      | some _ => synErr "vertex property must be array")
    let _ ← need (vArr.length ≥ 1) "Vertex buffer may not be empty"
    let _ ← need (vArr.length % 3 = 0) "Vertex buffer array must be a multiple of 3"
    let sArr ← (match jlookup fs "scene" with
      | none => synErr "Missing scene property"
      | some (.jarr xs) => Except.ok xs
      | some _ => synErr "scene property must be array")
    let _ ← need (sArr.length ≥ 1) "Scene graph may not be empty"
    let _ ← need (sArr.length % 5 = 0) "Scene graph array be a multiple of 5"
    let _ ← need (psArr.length ≤ 65535) "At most 65535 point styles are allowed"
    let _ ← need (lsArr.length ≤ 65535) "At most 65535 line styles are allowed"
    let _ ← need (rArr.length ≤ 65535) "At most 65535 radius definitions are allowed"
    let _ ← need (vArr.length / 3 ≤ 65535) "At most 65535 vertex definitions are allowed"
    let _ ← need (sArr.length / 5 ≤ 65535) "At most 65535 scene objects are allowed"
    let vtx ← loadVerts vArr
    let scene ← loadSceneObjs (vArr.length / 3) rArr.length psArr.length
      lsArr.length sArr
    let rad ← loadRadii rArr
    let ps ← loadPstyles psArr
    let ls ← loadLstyles lsArr
    Except.ok ⟨vtx, scene, rad, ps, ls⟩
  | _ => synErr "Top-level entity must be object"

/-- The module-level scene state: `m_errmsg`, `m_loaded`, and the eight
tables/buffers (`m_vtx`, `m_tvx`, `m_pvx`, `m_rad`, `m_scene`,
`m_paint`, `m_pstyle`, `m_lstyle`).  The transform and paint buffers are
zero-filled typed arrays allocated at load. -/
structure ModuleState where
  errmsg : Option String
  loaded : Bool
  vtx : List ℚ
  tvx : List ℚ
  pvx : List ℚ
  rad : List ℚ
  scene : List SceneObj
  paint : List ℕ
  pstyle : List PStyle
  lstyle : List LStyle
deriving DecidableEq

/-- `loadScene` on an already-parsed input (`none` models a `JSON.parse`
failure).  `m_errmsg` is cleared on entry; a syntax error stores its
message and returns `false`; a crash (`some b = none`) propagates out of
the function; success commits all tables atomically and returns `true`. -/
def loadSceneRun (s : ModuleState) (inp : Option JVal) : ModuleState × Option Bool :=
  match inp with
  | none => ({ s with errmsg := some "Not a valid JSON file" }, some false)
  | some v =>
    match validate v with
    | .ok t =>
      ({ errmsg := none
         loaded := true
         vtx := t.vtx
         tvx := List.replicate t.vtx.length 0
         pvx := List.replicate t.vtx.length 0
         rad := t.rad
         scene := t.scene
         paint := List.replicate t.scene.length 0
         pstyle := t.ps
         lstyle := t.ls }, some true)
    | .error (.syn m) => ({ s with errmsg := some m }, some false)
    | .error .crash => ({ s with errmsg := none }, none)

/-- `loadError()` (lines 2563–2570). -/
def loadError (s : ModuleState) : String :=
  match s.errmsg with
  | none => "No error"
  | some m => m

/-- A sample module state for witnesses. -/
def st0 : ModuleState := ⟨none, false, [], [], [], [], [], [], [], []⟩

/-- Camera-space vertex buffer of the C1 example: an accepted triangle
whose three camera-space vertices all lie at `Z = −1`. -/
def cxTvx : ℕ → Vec3 := fun n =>
  if n = 0 then ⟨0, 0, -1⟩ else if n = 1 then ⟨1, 0, -1⟩ else ⟨0, 1, -1⟩

/-- Scene object of the C1 example: the triangle over vertices 0, 1, 2. -/
def cxObj : SceneObj := ⟨0, 1, 2, 0, 0⟩

/-- Camera-space vertices for the witness scenes: vertex 0 at `Z = −1`,
all others at `Z = −1/2`. -/
def wTvx : ℕ → Vec3 := fun n => if n = 0 then ⟨0, 0, -1⟩ else ⟨0, 0, -(1/2)⟩

/-- A point object over vertex 0. -/
def wPoint0 : SceneObj := ⟨0, 65535, 65535, 0, 0⟩

/-- A point object over vertex 1. -/
def wPoint1 : SceneObj := ⟨1, 65535, 65535, 0, 0⟩

def wScene1 : List SceneObj := [wPoint0]

def wScene2 : List SceneObj := [wPoint0, wPoint1]

/-- Camera-space vertices of the C5 witness: a clockwise-wound triangle
in front of the camera. -/
def w5Tvx : ℕ → Vec3 := fun n =>
  if n = 0 then ⟨0, 0, -1⟩ else if n = 1 then ⟨0, 1, -1⟩ else ⟨1, 0, -1⟩

def w5Obj : SceneObj := ⟨0, 1, 2, 0, 0⟩

def w5Scene : List SceneObj := [w5Obj]

/-- Witness scene for C10: a grid point referencing the bad style, with
an otherwise fully valid scene. -/
def w10Style : List (String × JVal) :=
  [("shape", .jstr "p"), ("size", .jnum 3), ("stroke", .jnum 1),
   ("ink", .jnum 5)]

def w10Input : List (String × JVal) :=
  [("vertex", .jarr [.jnum 0, .jnum 0, .jnum 0]),
   ("scene", .jarr [.jnum 0, .jnum ((65535 : ℕ) : ℚ),
      .jnum ((65535 : ℕ) : ℚ), .jnum 0, .jnum 0]),
   ("pstyle", .jarr [.jobj w10Style])]


end Delilah

deriving instance DecidableEq for Except

/-! ### Claim C7 -/

/-- C7: for every matrix `M` and all (finite — automatic over `ℚ`)
numbers `a b c d e f`, `M.translate(a,b,c).translate(d,e,f)` has exactly
the same 16 cells as `M.translate(a+d, b+e, c+f)`. -/
theorem Delilah.Matrix.translate_translate (M : Delilah.Matrix)
    (a b c d e f : ℚ) :
    (M.translate a b c).translate d e f = M.translate (a + d) (b + e) (c + f) := by
  funext i j
  fin_cases i <;> fin_cases j <;>
    simp [Delilah.Matrix.translate, Delilah.Matrix.mul, Matrix.cons_val_zero,
      Matrix.cons_val_one, Fin.isValue] <;> ring

namespace Delilah

/-! ### Claim C2 -/

/-- C2 (code bug): clipping iteration `k = 1` of `k_max = 2` for a
triangle with exactly one vertex past the far plane (`near = 0`,
`far = −1`, sorted vertices `(0,0,−1/2)`, `(1,0,−1/2)`, `(0,1,−2)`).
The source's own comment says the third vertex is adjusted onto edge
v1→v3 at the far-plane intersection, but the branch assigns `y3 = far`
where `z3 = far` was intended: the emitted bottom vertex keeps
`z = −2 ≠ far` and instead has its Y overwritten with `far = −1`. -/
theorem farClip_single_vertex_bug :
    (clipIter 0 (-1) 1 2 ⟨0, 0, -(1/2)⟩ ⟨1, 0, -(1/2)⟩ ⟨0, 1, -2⟩).2.2.z ≠ -1 ∧
    (clipIter 0 (-1) 1 2 ⟨0, 0, -(1/2)⟩ ⟨1, 0, -(1/2)⟩ ⟨0, 1, -2⟩).2.2.y = -1 := by
  norm_num [clipIter, sortDescZ, nearClip, farClip]

/-! ### Claim C1 -/


/-- With `near = 0`, `far = −2` the example triangle is accepted and its
paint key is `32767 << 16 | 0`: the normalized centroid is `1/2`, and the
source quantizes with `Math.floor(0.5 · 65535) = 32767`. -/
theorem cx_paintKey_eval : paintKey 0 (-2) cxTvx cxObj 0 = 32767 * 65536 := by
  norm_num [paintKey, cxTvx, cxObj, triP, packKey, quantZ, sentinel]
  decide

/-- C1 counterexample: at the example input the stored high word is
`32767`, but the claim's formula `round((z−far)/(near−far)·65535)` gives
`round(32767.5) = 32768`.  The claim as stated is false on the code. -/
theorem quantizedZ_round_counterexample :
    paintKey 0 (-2) cxTvx cxObj 0 ≠ sentinel ∧
    paintKey 0 (-2) cxTvx cxObj 0 / 65536 = 32767 ∧
    (quantizedZRound 0 (-2) (zCentroid cxTvx cxObj)).toNat = 32768 := by
  refine ⟨?_, ?_, ?_⟩
  · rw [cx_paintKey_eval]; norm_num [sentinel]
  · rw [cx_paintKey_eval]
  · norm_num [quantizedZRound, zCentroid, cxTvx, cxObj, round_eq]
    decide

/-- The cull pass's quantization chain coincides, over `ℚ`, with the
amended spec formula (clamp to `[far, near]`, normalize, `⌊· · 65535⌋`,
clamp to `[0, 65535]`). -/
theorem quantZ_eq_spec (near far z : ℚ) :
    quantZ near far z = quantizedZSpec near far z := rfl

/-- Unpacking the high word of an accepted key recovers the quantized Z. -/
theorem packKey_div (near far z : ℚ) (i : ℕ) (hi : i < 65536) :
    packKey near far z i / 65536 = (quantizedZSpec near far z).toNat := by
  unfold packKey
  rw [quantZ_eq_spec, Nat.mul_comm, Nat.mul_add_div (by norm_num),
    Nat.div_eq_of_lt hi, Nat.add_zero]

/-- C1 (amended): for every scene object the cull pass accepts (its paint
slot is not `0xffffffff`), the 16-bit quantized Z in the high word of the
stored paint key equals `⌊(z_centroid − far)/(near − far) · 65535⌋`
clamped to `[0, 65535]`, where `z_centroid` is the object's camera-space
centroid Z clamped to `[far, near]` (the claim's `round` amended to the
`Math.floor` the source uses; the non-finite-to-0 forcing is dead over ℚ). -/
theorem paintKey_high_word (near far : ℚ) (tvx : ℕ → Vec3) (o : SceneObj)
    (i : ℕ) (hi : i < 65536)
    (hacc : paintKey near far tvx o i ≠ sentinel) :
    paintKey near far tvx o i / 65536
      = (quantizedZSpec near far (zCentroid tvx o)).toNat := by
  unfold paintKey at hacc ⊢
  unfold zCentroid
  dsimp only at hacc ⊢
  split_ifs at hacc ⊢ <;>
    first
      | exact absurd rfl hacc
      | exact packKey_div _ _ _ _ hi

/-- Witness for C1 at the example input. -/
theorem paintKey_high_word_witness :
    (0 : ℕ) < 65536 ∧
    paintKey 0 (-2) cxTvx cxObj 0 ≠ sentinel ∧
    paintKey 0 (-2) cxTvx cxObj 0 / 65536
      = (quantizedZSpec 0 (-2) (zCentroid cxTvx cxObj)).toNat := by
  have hacc : paintKey 0 (-2) cxTvx cxObj 0 ≠ sentinel := by
    rw [cx_paintKey_eval]; norm_num [sentinel]
  exact ⟨by norm_num, hacc,
    paintKey_high_word 0 (-2) cxTvx cxObj 0 (by norm_num) hacc⟩

/-! ### Shared facts about paint keys, the sort, and the draw pass -/

/-- An accepted paint key is bounded by `0xfffffffe`: the quantized Z is
at most 65535 and the object index at most 65534. -/
theorem packKey_le (near far z : ℚ) (j : ℕ) (hj : j ≤ 65534) :
    packKey near far z j ≤ 4294967294 := by
  unfold packKey
  have hq : quantZ near far z ≤ 65535 := by
    unfold quantZ
    dsimp only
    exact min_le_right _ _
  have h1 : (quantZ near far z).toNat ≤ 65535 := by omega
  calc (quantZ near far z).toNat * 65536 + j
      ≤ 65535 * 65536 + 65534 := Nat.add_le_add (Nat.mul_le_mul_right _ h1) hj
    _ = 4294967294 := by norm_num

/-- Every slot the cull pass writes is at most `0xffffffff`. -/
theorem paintKey_le (near far : ℚ) (tvx : ℕ → Vec3) (o : SceneObj) (j : ℕ)
    (hj : j ≤ 65534) : paintKey near far tvx o j ≤ sentinel := by
  unfold paintKey
  dsimp only
  split_ifs <;>
    first
      | exact le_refl sentinel
      | exact le_trans (packKey_le _ _ _ _ hj) (by norm_num [sentinel])

/-- The low word of an accepted paint key is the object index. -/
theorem paintKey_mod (near far : ℚ) (tvx : ℕ → Vec3) (o : SceneObj) (j : ℕ)
    (hj : j < 65536) (hacc : paintKey near far tvx o j ≠ sentinel) :
    paintKey near far tvx o j % 65536 = j := by
  unfold paintKey at hacc ⊢
  dsimp only at hacc ⊢
  split_ifs at hacc ⊢ <;>
    first
      | exact absurd rfl hacc
      | (unfold packKey; omega)

theorem mem_paintList {near far : ℚ} {tvx : ℕ → Vec3} {scene : List SceneObj}
    {x : ℕ} :
    x ∈ paintList near far tvx scene ↔
      ∃ j, j < scene.length ∧ x = paintKey near far tvx (scene.getD j default) j := by
  simp only [paintList, List.mem_map, List.mem_range]
  constructor
  · rintro ⟨j, hj, rfl⟩; exact ⟨j, hj, rfl⟩
  · rintro ⟨j, hj, rfl⟩; exact ⟨j, hj, rfl⟩

theorem sortedPaint_sorted (near far : ℚ) (tvx : ℕ → Vec3)
    (scene : List SceneObj) :
    (sortedPaint near far tvx scene).Sorted (· ≤ ·) :=
  List.sorted_insertionSort _ _

theorem mem_sortedPaint {near far : ℚ} {tvx : ℕ → Vec3} {scene : List SceneObj}
    {x : ℕ} :
    x ∈ sortedPaint near far tvx scene ↔ x ∈ paintList near far tvx scene :=
  (List.perm_insertionSort _ _).mem_iff

/-- In a sorted list whose elements are bounded by `sentinel`, every
element other than `sentinel` survives `takeWhile (· ≠ sentinel)` — the
sentinels all sit in the dropped suffix. -/
theorem mem_takeWhile_ne_of_sorted :
    ∀ {l : List ℕ}, l.Sorted (· ≤ ·) → (∀ x ∈ l, x ≤ sentinel) →
      ∀ {a : ℕ}, a ∈ l → a ≠ sentinel →
        a ∈ l.takeWhile (fun k => k != sentinel) := by
  intro l
  induction l with
  | nil => intro _ _ a ha _; cases ha
  | cons h t ih =>
    intro hs hb a ha hane
    rcases List.sorted_cons.mp hs with ⟨hrel, hts⟩
    by_cases hh : h = sentinel
    · -- the head is already the sentinel: then a would be ≥ sentinel too
      rcases List.mem_cons.mp ha with rfl | hat
      · exact absurd hh hane
      · have h1 : h ≤ a := hrel a hat
        have h2 : a ≤ sentinel := hb a (List.mem_cons_of_mem _ hat)
        exact absurd (le_antisymm h2 (hh ▸ h1)) hane
    · rw [List.takeWhile_cons_of_pos (by simpa using hh)]
      rcases List.mem_cons.mp ha with rfl | hat
      · exact List.mem_cons_self _ _
      · exact List.mem_cons_of_mem _
          (ih hts (fun x hx => hb x (List.mem_cons_of_mem _ hx)) hat hane)

/-- Membership in the visited prefix decomposes into membership in the
cull-pass output plus not being the stop marker. -/
theorem mem_drawnKeys_elim {near far : ℚ} {tvx : ℕ → Vec3}
    {scene : List SceneObj} {x : ℕ} (hx : x ∈ drawnKeys near far tvx scene) :
    x ∈ paintList near far tvx scene ∧ x ≠ sentinel := by
  refine ⟨mem_sortedPaint.mp ((List.takeWhile_prefix _).sublist.subset hx), ?_⟩
  have := List.mem_takeWhile_imp hx
  simpa using this

/-- Every accepted object's key is visited by the draw pass: the sorted
order puts all real keys before the `0xffffffff` markers. -/
theorem accepted_mem_drawnKeys {near far : ℚ} {tvx : ℕ → Vec3}
    {scene : List SceneObj} {i : ℕ}
    (hlen : scene.length ≤ 65535) (hi : i < scene.length)
    (hacc : paintKey near far tvx (scene.getD i default) i ≠ sentinel) :
    paintKey near far tvx (scene.getD i default) i ∈ drawnKeys near far tvx scene := by
  have hmem : paintKey near far tvx (scene.getD i default) i
      ∈ sortedPaint near far tvx scene :=
    mem_sortedPaint.mpr (mem_paintList.mpr ⟨i, hi, rfl⟩)
  have hbound : ∀ x ∈ sortedPaint near far tvx scene, x ≤ sentinel := by
    intro x hx
    rcases mem_paintList.mp (mem_sortedPaint.mp hx) with ⟨j, hj, rfl⟩
    exact paintKey_le near far tvx _ j (by omega)
  exact mem_takeWhile_ne_of_sorted (sortedPaint_sorted near far tvx scene)
    hbound hmem hacc

/-- In a sorted list, a strictly smaller member occurs strictly earlier. -/
theorem sorted_indexOf_lt :
    ∀ {l : List ℕ}, l.Sorted (· ≤ ·) →
      ∀ {a b : ℕ}, a ∈ l → b ∈ l → a < b → l.indexOf a < l.indexOf b := by
  intro l
  induction l with
  | nil => intro _ a b ha; cases ha
  | cons h t ih =>
    intro hs a b ha hb hab
    rcases List.sorted_cons.mp hs with ⟨hrel, hts⟩
    by_cases hha : a = h
    · subst hha
      have hbh : b ≠ a := Nat.ne_of_gt hab
      rw [List.indexOf_cons_self]
      rw [List.indexOf_cons_ne _ (by simpa using (Ne.symm hbh))]
      exact Nat.succ_pos _
    · have hat : a ∈ t := (List.mem_cons.mp ha).resolve_left hha
      have hbh : b ≠ h := by
        rintro rfl
        exact absurd (hrel a hat) (not_le.mpr hab)
      have hbt : b ∈ t := (List.mem_cons.mp hb).resolve_left hbh
      rw [List.indexOf_cons_ne _ (by simpa using (Ne.symm hha)),
        List.indexOf_cons_ne _ (by simpa using (Ne.symm hbh))]
      exact Nat.succ_lt_succ (ih hts hat hbt hab)

/-- `indexOf` commutes with `map` at an element on which `f` is injective
relative to the list. -/
theorem indexOf_map {f : ℕ → ℕ} :
    ∀ {l : List ℕ} {a : ℕ}, a ∈ l → (∀ x ∈ l, f x = f a → x = a) →
      (l.map f).indexOf (f a) = l.indexOf a := by
  intro l
  induction l with
  | nil => intro a ha; cases ha
  | cons h t ih =>
    intro a ha hinj
    by_cases hha : h = a
    · subst hha
      rw [List.map_cons, List.indexOf_cons_self, List.indexOf_cons_self]
    · have hfa : f h ≠ f a := fun he => hha (hinj h (List.mem_cons_self _ _) he)
      have hat : a ∈ t := (List.mem_cons.mp ha).resolve_left (fun he => hha he.symm)
      rw [List.map_cons, List.indexOf_cons_ne _ (by simpa using hfa),
        List.indexOf_cons_ne _ (by simpa using hha)]
      exact congrArg Nat.succ
        (ih hat (fun x hx => hinj x (List.mem_cons_of_mem _ hx)))

/-- Low words are unique among visited keys: a visited key whose low word
is `i` (an accepted index) is the key of object `i`. -/
theorem drawnKeys_low_word_inj {near far : ℚ} {tvx : ℕ → Vec3}
    {scene : List SceneObj} (hlen : scene.length ≤ 65535) {i : ℕ}
    (hi : i < scene.length) {x : ℕ} (hx : x ∈ drawnKeys near far tvx scene)
    (hlow : x % 65536 = i) :
    x = paintKey near far tvx (scene.getD i default) i := by
  rcases mem_drawnKeys_elim hx with ⟨hmem, hne⟩
  rcases mem_paintList.mp hmem with ⟨j, hj, rfl⟩
  have hmod := paintKey_mod near far tvx (scene.getD j default) j (by omega) hne
  have : j = i := by omega
  subst this
  rfl

/-! ### Claim C9 -/

/-- C9: an accepted object's packed key is strictly below `0xffffffff`
(indices stop at 65534 when the scene holds at most 65535 objects), so
the draw pass's stop at the first `0xffffffff` of the sorted paint array
never skips an accepted object: every accepted object is dispatched. -/
theorem accepted_is_dispatched (near far : ℚ) (tvx : ℕ → Vec3)
    (scene : List SceneObj) (i : ℕ)
    (hlen : scene.length ≤ 65535) (hi : i < scene.length)
    (hacc : paintKey near far tvx (scene.getD i default) i ≠ sentinel) :
    paintKey near far tvx (scene.getD i default) i < sentinel ∧
    i ∈ emitted near far tvx scene := by
  constructor
  · exact lt_of_le_of_ne (paintKey_le near far tvx _ i (by omega)) hacc
  · have hdrawn := accepted_mem_drawnKeys hlen hi hacc
    have hmod := paintKey_mod near far tvx (scene.getD i default) i (by omega) hacc
    exact List.mem_map.mpr ⟨_, hdrawn, hmod⟩


theorem wKey0_eval : paintKey 0 (-2) wTvx wPoint0 0 = 2147418112 := by
  norm_num [paintKey, wTvx, wPoint0, packKey, quantZ, sentinel]
  decide

theorem wKey1_eval : paintKey 0 (-2) wTvx wPoint1 1 = 3221159937 := by
  norm_num [paintKey, wTvx, wPoint1, packKey, quantZ, sentinel]
  decide

/-- Witness for C9: the single accepted point of the one-object witness
scene is dispatched. -/
theorem accepted_is_dispatched_witness :
    paintKey 0 (-2) wTvx (wScene1.getD 0 default) 0 ≠ sentinel ∧
    (paintKey 0 (-2) wTvx (wScene1.getD 0 default) 0 < sentinel ∧
      0 ∈ emitted 0 (-2) wTvx wScene1) := by
  have hacc : paintKey 0 (-2) wTvx (wScene1.getD 0 default) 0 ≠ sentinel := by
    show paintKey 0 (-2) wTvx wPoint0 0 ≠ sentinel
    rw [wKey0_eval]; norm_num [sentinel]
  exact ⟨hacc,
    accepted_is_dispatched 0 (-2) wTvx wScene1 0 (by norm_num [wScene1, wScene2])
      (by norm_num [wScene1]) hacc⟩

/-! ### Claim C5 -/

/-- C5: a triangle with backface dot product `≥ 0` has its paint slot set
to `0xffffffff` and is never dispatched for drawing in the frame: no
visited key's low word is its index. -/
theorem backface_culled (near far : ℚ) (tvx : ℕ → Vec3)
    (scene : List SceneObj) (i : ℕ)
    (hlen : scene.length ≤ 65535) (hi : i < scene.length)
    (hb : (scene.getD i default).b ≠ 65535)
    (hc : (scene.getD i default).c ≠ 65535)
    (hp : 0 ≤ triP tvx (scene.getD i default)) :
    paintKey near far tvx (scene.getD i default) i = sentinel ∧
    i ∉ emitted near far tvx scene := by
  have h1 : paintKey near far tvx (scene.getD i default) i = sentinel := by
    unfold paintKey
    dsimp only
    rw [if_pos ⟨hb, hc⟩, if_neg (not_lt.mpr hp)]
  refine ⟨h1, fun hmem => ?_⟩
  rcases List.mem_map.mp hmem with ⟨x, hx, hxe⟩
  have hxeq := drawnKeys_low_word_inj hlen hi hx hxe
  have := (mem_drawnKeys_elim hx).2
  rw [hxeq, h1] at this
  exact this rfl


/-- Witness for C5: the clockwise triangle is rejected and not drawn. -/
theorem backface_culled_witness :
    0 ≤ triP w5Tvx (w5Scene.getD 0 default) ∧
    (paintKey 0 (-2) w5Tvx (w5Scene.getD 0 default) 0 = sentinel ∧
      0 ∉ emitted 0 (-2) w5Tvx w5Scene) := by
  have hp : 0 ≤ triP w5Tvx (w5Scene.getD 0 default) := by
    show 0 ≤ triP w5Tvx w5Obj
    norm_num [triP, w5Tvx, w5Obj]
  exact ⟨hp,
    backface_culled 0 (-2) w5Tvx w5Scene 0 (by norm_num [w5Scene])
      (by norm_num [w5Scene]) (by norm_num [w5Scene, w5Obj])
      (by norm_num [w5Scene, w5Obj]) hp⟩

/-! ### Claim C6 -/

/-- C6: after the ascending paint sort, if two accepted objects have
quantized Z values (the high words of their keys) with `z_i < z_j`, then
object `i` is dispatched to the surface strictly before object `j`. -/
theorem paint_sort_order (near far : ℚ) (tvx : ℕ → Vec3)
    (scene : List SceneObj) (i j : ℕ)
    (hlen : scene.length ≤ 65535) (hi : i < scene.length)
    (hj : j < scene.length)
    (hacci : paintKey near far tvx (scene.getD i default) i ≠ sentinel)
    (haccj : paintKey near far tvx (scene.getD j default) j ≠ sentinel)
    (hz : paintKey near far tvx (scene.getD i default) i / 65536
        < paintKey near far tvx (scene.getD j default) j / 65536) :
    i ∈ emitted near far tvx scene ∧ j ∈ emitted near far tvx scene ∧
    (emitted near far tvx scene).indexOf i
      < (emitted near far tvx scene).indexOf j := by
  have hik : paintKey near far tvx (scene.getD i default) i
      < paintKey near far tvx (scene.getD j default) j := by
    by_contra hle
    push_neg at hle
    exact absurd (Nat.div_le_div_right (c := 65536) hle) (not_le.mpr hz)
  have hkid := accepted_mem_drawnKeys hlen hi hacci
  have hkjd := accepted_mem_drawnKeys hlen hj haccj
  have hmodi := paintKey_mod near far tvx (scene.getD i default) i (by omega) hacci
  have hmodj := paintKey_mod near far tvx (scene.getD j default) j (by omega) haccj
  have hsorted : (drawnKeys near far tvx scene).Sorted (· ≤ ·) :=
    List.Pairwise.sublist (List.takeWhile_prefix _).sublist
      (sortedPaint_sorted near far tvx scene)
  have hidx := sorted_indexOf_lt hsorted hkid hkjd hik
  have hinji : ∀ x ∈ drawnKeys near far tvx scene,
      x % 65536 = paintKey near far tvx (scene.getD i default) i % 65536 →
      x = paintKey near far tvx (scene.getD i default) i := by
    intro x hx hxe
    exact drawnKeys_low_word_inj hlen hi hx (by rw [hxe, hmodi])
  have hinjj : ∀ x ∈ drawnKeys near far tvx scene,
      x % 65536 = paintKey near far tvx (scene.getD j default) j % 65536 →
      x = paintKey near far tvx (scene.getD j default) j := by
    intro x hx hxe
    exact drawnKeys_low_word_inj hlen hj hx (by rw [hxe, hmodj])
  have ei : (emitted near far tvx scene).indexOf i
      = (drawnKeys near far tvx scene).indexOf
          (paintKey near far tvx (scene.getD i default) i) := by
    have h := indexOf_map (f := fun k => k % 65536) hkid hinji
    dsimp only at h
    rw [hmodi] at h
    unfold emitted
    exact h
  have ej : (emitted near far tvx scene).indexOf j
      = (drawnKeys near far tvx scene).indexOf
          (paintKey near far tvx (scene.getD j default) j) := by
    have h := indexOf_map (f := fun k => k % 65536) hkjd hinjj
    dsimp only at h
    rw [hmodj] at h
    unfold emitted
    exact h
  exact ⟨List.mem_map.mpr ⟨_, hkid, hmodi⟩,
    List.mem_map.mpr ⟨_, hkjd, hmodj⟩,
    by rw [ei, ej]; exact hidx⟩

/-- Witness for C6: two accepted points at different depths of the
two-object witness scene are emitted back to front. -/
theorem paint_sort_order_witness :
    paintKey 0 (-2) wTvx (wScene2.getD 0 default) 0 ≠ sentinel ∧
    paintKey 0 (-2) wTvx (wScene2.getD 1 default) 1 ≠ sentinel ∧
    (0 ∈ emitted 0 (-2) wTvx wScene2 ∧ 1 ∈ emitted 0 (-2) wTvx wScene2 ∧
      (emitted 0 (-2) wTvx wScene2).indexOf 0
        < (emitted 0 (-2) wTvx wScene2).indexOf 1) := by
  have h0 : wScene2.getD 0 default = wPoint0 := rfl
  have h1 : wScene2.getD 1 default = wPoint1 := rfl
  have hacc0 : paintKey 0 (-2) wTvx (wScene2.getD 0 default) 0 ≠ sentinel := by
    rw [h0, wKey0_eval]; norm_num [sentinel]
  have hacc1 : paintKey 0 (-2) wTvx (wScene2.getD 1 default) 1 ≠ sentinel := by
    rw [h1, wKey1_eval]; norm_num [sentinel]
  have hz : paintKey 0 (-2) wTvx (wScene2.getD 0 default) 0 / 65536
      < paintKey 0 (-2) wTvx (wScene2.getD 1 default) 1 / 65536 := by
    rw [h0, wKey0_eval, h1, wKey1_eval]
    decide
  exact ⟨hacc0, hacc1,
    paint_sort_order 0 (-2) wTvx wScene2 0 1 (by norm_num [wScene2])
      (by norm_num [wScene2]) (by norm_num [wScene2]) hacc0 hacc1 hz⟩

end Delilah


deriving instance DecidableEq for Except

namespace Delilah

/-! ### Claim C3 -/

/-- C3 (code bug): for the point style
`{shape:"c", size:1, stroke:1, fill:5, ink:7}` the validator succeeds and
stores `ink = 5` — the floored value of the `fill` property — although
the scene file's `ink` property is `7`.  The source's own comments and
error messages say the `ink` property is being read, but line 3287 reads
`o.fill`. -/
theorem pstyle_ink_from_fill :
    loadPstyleOne (.jobj [("shape", .jstr "c"), ("size", .jnum 1),
        ("stroke", .jnum 1), ("fill", .jnum 5), ("ink", .jnum 7)])
      = .ok ⟨"c", 1, 1, some 5, some 5⟩ ∧ (5 : ℤ) ≠ ⌊(7 : ℚ)⌋ := by
  constructor
  · decide
  · decide

/-! ### Claim C4 -/

/-- C4: whenever `loadScene` returns `false`, the loaded flag and the
vertex, radius, scene-object, point-style and line-style tables together
with the transform and paint buffers are exactly what they were before
the call (only `m_errmsg` changes, which the claim does not cover). -/
theorem loadScene_false_state_unchanged (s : ModuleState) (inp : Option JVal)
    (hf : (loadSceneRun s inp).2 = some false) :
    (loadSceneRun s inp).1.loaded = s.loaded ∧
    (loadSceneRun s inp).1.vtx = s.vtx ∧
    (loadSceneRun s inp).1.tvx = s.tvx ∧
    (loadSceneRun s inp).1.pvx = s.pvx ∧
    (loadSceneRun s inp).1.rad = s.rad ∧
    (loadSceneRun s inp).1.scene = s.scene ∧
    (loadSceneRun s inp).1.paint = s.paint ∧
    (loadSceneRun s inp).1.pstyle = s.pstyle ∧
    (loadSceneRun s inp).1.lstyle = s.lstyle := by
  cases inp with
  | none => exact ⟨rfl, rfl, rfl, rfl, rfl, rfl, rfl, rfl, rfl⟩
  | some v =>
    cases hv : validate v with
    | ok t =>
      have h2 : (loadSceneRun s (some v)).2 = some true := by
        simp [loadSceneRun, hv]
      rw [h2] at hf
      exact absurd hf (by simp)
    | error e =>
      cases e with
      | syn m =>
        have h1 : loadSceneRun s (some v) = ({ s with errmsg := some m }, some false) := by
          simp [loadSceneRun, hv]
        rw [h1]
        exact ⟨rfl, rfl, rfl, rfl, rfl, rfl, rfl, rfl, rfl⟩
      | crash =>
        have h2 : (loadSceneRun s (some v)).2 = none := by
          simp [loadSceneRun, hv]
        rw [h2] at hf
        exact absurd hf (by simp)

/-- Witness for C4: a `JSON.parse` failure returns `false` and leaves
the sample state's tables untouched. -/
theorem loadScene_false_state_unchanged_witness :
    (loadSceneRun st0 none).2 = some false ∧
    ((loadSceneRun st0 none).1.loaded = st0.loaded ∧
     (loadSceneRun st0 none).1.vtx = st0.vtx ∧
     (loadSceneRun st0 none).1.tvx = st0.tvx ∧
     (loadSceneRun st0 none).1.pvx = st0.pvx ∧
     (loadSceneRun st0 none).1.rad = st0.rad ∧
     (loadSceneRun st0 none).1.scene = st0.scene ∧
     (loadSceneRun st0 none).1.paint = st0.paint ∧
     (loadSceneRun st0 none).1.pstyle = st0.pstyle ∧
     (loadSceneRun st0 none).1.lstyle = st0.lstyle) := by
  have h : (loadSceneRun st0 none).2 = some false := rfl
  exact ⟨h, loadScene_false_state_unchanged st0 none h⟩

end Delilah

namespace Delilah

/-! ### Bind plumbing for the validation chain -/

theorem ok_bind {α β : Type} (a : α) (f : α → Except LoadErr β) :
    (Except.ok a >>= f) = f a := rfl

theorem err_bind {α β : Type} (e : LoadErr) (f : α → Except LoadErr β) :
    ((Except.error e : Except LoadErr α) >>= f) = Except.error e := rfl

theorem except_bind_ok {α β : Type} {x : Except LoadErr α}
    {f : α → Except LoadErr β} {b : β} (h : (x >>= f) = .ok b) :
    ∃ a, x = .ok a ∧ f a = .ok b := by
  cases x with
  | ok a => exact ⟨a, rfl, h⟩
  | error e => rw [err_bind] at h; cases h

/-- The vertex loop succeeds on an all-numbers buffer and returns it. -/
theorem loadVerts_map (vs : List ℚ) : loadVerts (vs.map JVal.jnum) = .ok vs := by
  induction vs with
  | nil => rfl
  | cons q t ih => simp [List.map_cons, loadVerts, ih, ok_bind]

/-! ### Claim C8 -/

/-- A scene-object quintuple `(a, 0xffff, c, 0xffff, 0xffff)` with valid
vertex and radius indices passes every earlier check of the sphere
branch and fails the fully-transparent check with exactly the message
`"Spheres may not be fully transparent"`. -/
theorem sphereTransparent_obj (vcount rcount pscount lscount a c : ℕ)
    (ha : a < vcount) (hc : c < rcount)
    (hvc : vcount ≤ 65535) (hrc : rcount ≤ 65535) :
    loadSceneObjOne vcount rcount pscount lscount
      (.jnum (a : ℚ)) (.jnum ((65535 : ℕ) : ℚ)) (.jnum (c : ℚ))
      (.jnum ((65535 : ℕ) : ℚ)) (.jnum ((65535 : ℕ) : ℚ))
      = synErr "Spheres may not be fully transparent" := by
  unfold loadSceneObjOne
  dsimp only
  rw [Int.floor_natCast a, Int.floor_natCast 65535, Int.floor_natCast c]
  split_ifs <;> first | rfl | (exfalso; omega)

/-- C8: for every scene whose first validation violation is a sphere
with fill word `0xffff` and style word `0xffff` (here: valid vertex and
scene shapes, the sphere first in the scene array with in-range vertex
and radius indices, the rest of the scene and the radius contents
arbitrary — they are checked later), `loadScene` returns `false` and
`loadError()` afterwards returns exactly
`"Spheres may not be fully transparent"`. -/
theorem loadScene_sphere_transparent
    (s : ModuleState) (vs : List ℚ) (rs srest : List JVal) (a c : ℕ)
    (hv1 : vs ≠ []) (hv3 : vs.length % 3 = 0) (hvc : vs.length / 3 ≤ 65535)
    (hrc : rs.length ≤ 65535)
    (ha : a < vs.length / 3) (hc : c < rs.length)
    (hs5 : srest.length % 5 = 0) (hsc : (srest.length + 5) / 5 ≤ 65535) :
    loadSceneRun s (some (.jobj
        [("vertex", .jarr (vs.map .jnum)),
         ("scene", .jarr (.jnum (a : ℚ) :: .jnum ((65535 : ℕ) : ℚ) ::
            .jnum (c : ℚ) :: .jnum ((65535 : ℕ) : ℚ) ::
            .jnum ((65535 : ℕ) : ℚ) :: srest)),
         ("radius", .jarr rs)]))
      = ({ s with errmsg := some "Spheres may not be fully transparent" },
         some false) ∧
    loadError (loadSceneRun s (some (.jobj
        [("vertex", .jarr (vs.map .jnum)),
         ("scene", .jarr (.jnum (a : ℚ) :: .jnum ((65535 : ℕ) : ℚ) ::
            .jnum (c : ℚ) :: .jnum ((65535 : ℕ) : ℚ) ::
            .jnum ((65535 : ℕ) : ℚ) :: srest)),
         ("radius", .jarr rs)]))).1
      = "Spheres may not be fully transparent" := by
  have c1 : 1 ≤ vs.length := List.length_pos.mpr hv1
  have hval : validate (.jobj
      [("vertex", .jarr (vs.map .jnum)),
       ("scene", .jarr (.jnum (a : ℚ) :: .jnum ((65535 : ℕ) : ℚ) ::
          .jnum (c : ℚ) :: .jnum ((65535 : ℕ) : ℚ) ::
          .jnum ((65535 : ℕ) : ℚ) :: srest)),
       ("radius", .jarr rs)])
      = synErr "Spheres may not be fully transparent" := by
    have hobj := sphereTransparent_obj (vs.length / 3)
      rs.length 0 0 a c ha hc hvc hrc
    simp only [validate, optArr, jlookup, String.reduceEq, reduceIte,
      ok_bind, need, List.length_cons, List.length_map, List.length_nil]
    rw [if_pos (by omega), ok_bind, if_pos (by omega), ok_bind,
      if_pos (by omega), ok_bind, if_pos (by omega), ok_bind,
      if_pos (by omega), ok_bind, if_pos (by omega), ok_bind,
      if_pos (by omega), ok_bind, if_pos (by omega), ok_bind,
      if_pos (by omega), ok_bind]
    rw [loadVerts_map, ok_bind]
    rw [loadSceneObjs]
    rw [hobj]
    simp only [synErr, err_bind]
  have h1 : loadSceneRun s (some (.jobj
      [("vertex", .jarr (vs.map .jnum)),
       ("scene", .jarr (.jnum (a : ℚ) :: .jnum ((65535 : ℕ) : ℚ) ::
          .jnum (c : ℚ) :: .jnum ((65535 : ℕ) : ℚ) ::
          .jnum ((65535 : ℕ) : ℚ) :: srest)),
       ("radius", .jarr rs)]))
      = ({ s with errmsg := some "Spheres may not be fully transparent" },
         some false) := by
    simp only [loadSceneRun]
    rw [hval]
    simp only [synErr]
  exact ⟨h1, by rw [h1]; rfl⟩

/-- Witness for C8 at a concrete scene. -/
theorem loadScene_sphere_transparent_witness :
    loadSceneRun st0 (some (.jobj
        [("vertex", .jarr ([(0 : ℚ), 0, 0].map .jnum)),
         ("scene", .jarr (.jnum ((0 : ℕ) : ℚ) :: .jnum ((65535 : ℕ) : ℚ) ::
            .jnum ((0 : ℕ) : ℚ) :: .jnum ((65535 : ℕ) : ℚ) ::
            .jnum ((65535 : ℕ) : ℚ) :: ([] : List JVal))),
         ("radius", .jarr [.jnum 1])]))
      = ({ st0 with errmsg := some "Spheres may not be fully transparent" },
         some false) := by
  exact (loadScene_sphere_transparent st0 [(0 : ℚ), 0, 0] [.jnum 1] [] 0 0
    (by simp) (by norm_num) (by norm_num) (by norm_num)
    (by norm_num) (by norm_num) (by norm_num) (by norm_num)).1

end Delilah

namespace Delilah

/-! ### Claim C10 -/

/-- If the point-style loop succeeds, every entry validated. -/
theorem loadPstyles_ok_mem : ∀ {l : List JVal} {ps : List PStyle},
    loadPstyles l = .ok ps → ∀ v ∈ l, ∃ p, loadPstyleOne v = .ok p := by
  intro l
  induction l with
  | nil => intro ps _ v hv; cases hv
  | cons a t ih =>
    intro ps h v hv
    rw [loadPstyles] at h
    obtain ⟨p, hp, hrest⟩ := except_bind_ok h
    obtain ⟨ps2, hps2, _⟩ := except_bind_ok hrest
    rcases List.mem_cons.mp hv with rfl | hvt
    · exact ⟨p, hp⟩
    · exact ih hps2 v hvt

/-- A point style whose shape is `"p"` or `"x"` and whose stroke is
positive never validates: its fill section forbids a `fill` property
(unfilled shape), while its ink section reads the ink color from the
`fill` property — absent, hence "Point style ink must be number". -/
theorem pstyleBad_no_ok {g : List (String × JVal)} {sh : String} {st : ℚ}
    (hsh : jlookup g "shape" = some (.jstr sh))
    (hpx : sh = "p" ∨ sh = "x")
    (hst : jlookup g "stroke" = some (.jnum st))
    (hpos : 0 < st) (p : PStyle) :
    loadPstyleOne (.jobj g) ≠ .ok p := by
  intro hok
  have hfacts : sh.length = 1 ∧ validShape sh = true ∧ isFillShape sh = false := by
    rcases hpx with rfl | rfl <;> exact ⟨rfl, rfl, rfl⟩
  obtain ⟨hl, hv, hfl⟩ := hfacts
  have h0 : (0 : ℚ) ≤ st := le_of_lt hpos
  simp only [loadPstyleOne] at hok
  rw [hsh, hst] at hok
  cases hsz : jlookup g "size" with
  | none =>
    rw [hsz] at hok
    simp [synErr] at hok
  | some zv =>
    rw [hsz] at hok
    cases zv with
    | jnum b =>
      by_cases hb : b > 0
      · cases hf : jlookup g "fill" with
        | none =>
          cases hi2 : jlookup g "ink" with
          | none =>
            simp [hf, hi2, hb, h0, hpos, hl, hv, hfl, synErr, ok_bind,
              err_bind] at hok
          | some w =>
            simp [hf, hi2, hb, h0, hpos, hl, hv, hfl, synErr, ok_bind,
              err_bind] at hok
        | some fv =>
          simp [hf, hb, h0, hpos, hl, hv, hfl, synErr, ok_bind,
            err_bind] at hok
      · simp [hb, hl, hv, synErr] at hok
    | jnull => simp [hl, hv, synErr] at hok
    | jbool b2 => simp [hl, hv, synErr] at hok
    | jstr t2 => simp [hl, hv, synErr] at hok
    | jarr l2 => simp [hl, hv, synErr] at hok
    | jobj o2 => simp [hl, hv, synErr] at hok

/-- C10: any scene input whose point-style array contains a style object
with shape `"p"` or `"x"` and a positive numeric stroke can never be
loaded — `loadScene` never returns `true` on such an input, however
well-formed the style's `ink` property and the rest of the scene are. -/
theorem pstyle_px_stroke_never_loads (s : ModuleState)
    (fs g : List (String × JVal)) (psArr : List JVal) (sh : String) (st : ℚ)
    (hps : jlookup fs "pstyle" = some (.jarr psArr))
    (hmem : JVal.jobj g ∈ psArr)
    (hsh : jlookup g "shape" = some (.jstr sh))
    (hpx : sh = "p" ∨ sh = "x")
    (hst : jlookup g "stroke" = some (.jnum st))
    (hpos : 0 < st) :
    (loadSceneRun s (some (.jobj fs))).2 ≠ some true := by
  intro htrue
  have hval : ∃ t, validate (.jobj fs) = .ok t := by
    cases hv : validate (.jobj fs) with
    | ok t => exact ⟨t, rfl⟩
    | error e =>
      cases e <;> simp [loadSceneRun, hv] at htrue
  obtain ⟨t, hval⟩ := hval
  unfold validate at hval
  obtain ⟨psA, hpsA, hval⟩ := except_bind_ok hval
  simp [optArr, hps] at hpsA
  subst hpsA
  obtain ⟨lsA, _, hval⟩ := except_bind_ok hval
  obtain ⟨rA, _, hval⟩ := except_bind_ok hval
  obtain ⟨vA, _, hval⟩ := except_bind_ok hval
  obtain ⟨u1, _, hval⟩ := except_bind_ok hval
  obtain ⟨u2, _, hval⟩ := except_bind_ok hval
  obtain ⟨sA, _, hval⟩ := except_bind_ok hval
  obtain ⟨u3, _, hval⟩ := except_bind_ok hval
  obtain ⟨u4, _, hval⟩ := except_bind_ok hval
  obtain ⟨u5, _, hval⟩ := except_bind_ok hval
  obtain ⟨u6, _, hval⟩ := except_bind_ok hval
  obtain ⟨u7, _, hval⟩ := except_bind_ok hval
  obtain ⟨u8, _, hval⟩ := except_bind_ok hval
  obtain ⟨u9, _, hval⟩ := except_bind_ok hval
  obtain ⟨vtx2, _, hval⟩ := except_bind_ok hval
  obtain ⟨scene2, _, hval⟩ := except_bind_ok hval
  obtain ⟨rad2, _, hval⟩ := except_bind_ok hval
  obtain ⟨psL, hpsL, _⟩ := except_bind_ok hval
  obtain ⟨pp, hpp⟩ := loadPstyles_ok_mem hpsL _ hmem
  exact pstyleBad_no_ok hsh hpx hst hpos pp hpp


/-- Witness for C10 at the concrete poisoned scene. -/
theorem pstyle_px_stroke_never_loads_witness :
    (loadSceneRun st0 (some (.jobj w10Input))).2 ≠ some true := by
  refine pstyle_px_stroke_never_loads st0 w10Input w10Style
    [.jobj w10Style] "p" 1 ?_ ?_ ?_ ?_ ?_ ?_
  · rfl
  · exact List.mem_singleton.mpr rfl
  · rfl
  · exact Or.inl rfl
  · rfl
  · norm_num

end Delilah
